import Mathlib

/-!
Verification development for the DTI preprocessing batch-orchestration layer
(`dti_processing.py` and `dti_utils.py`).

The Python source is shallowly embedded: the filesystem is a map from path
strings to optional contents plus a directory-existence predicate, external
commands (`scp`, `sbatch`, the FSL stages) are parameterized by their
outcomes, and Python exceptions are modeled with `Except` at the points
where the source raises and catches them.  Each definition carries a doc
comment citing the source lines it translates.
-/

/- ## String helpers (structural recursion, kernel-evaluable) -/

/-- Component-wise check that the first character list is an initial segment of
the second. -/
def charListStarts : List Char → List Char → Bool
  | [], _ => true
  | _ :: _, [] => false
  | a :: as, b :: bs => a == b && charListStarts as bs

/-- Model of `str.startswith(pre)`: `pre` is an initial segment of `s`. -/
def strStarts (pre s : String) : Bool := charListStarts pre.data s.data

/-- Model of `str.endswith(suf)`: `suf` is a final segment of `s`. -/
def strEnds (suf s : String) : Bool := charListStarts suf.data.reverse s.data.reverse

/-- Whitespace predicate for Python `str.strip()` / `str.split()`. -/
def isWsChar (c : Char) : Bool := c == ' ' || c == '\t' || c == '\n' || c == '\r'

/-- Model of Python `str.strip()`. -/
def pyStrip (s : String) : String :=
  String.mk (((s.data.dropWhile isWsChar).reverse.dropWhile isWsChar).reverse)

/-- Accumulator-based splitter on a single separator character, keeping empty
fields, as Python `str.split(sep)` does. -/
def splitCharAux (sep : Char) : List Char → List Char → List (List Char)
  | [], acc => [acc.reverse]
  | c :: rest, acc =>
    if c == sep then acc.reverse :: splitCharAux sep rest []
    else splitCharAux sep rest (c :: acc)

/-- Model of Python `str.split(sep)` for a one-character separator. -/
def pySplitChar (sep : Char) (s : String) : List String :=
  (splitCharAux sep s.data []).map String.mk

/-- Accumulator-based whitespace splitter that discards empty fields, as
Python's no-argument `str.split()` does. -/
def splitWsAux : List Char → List Char → List (List Char)
  | [], acc => if acc.isEmpty then [] else [acc.reverse]
  | c :: rest, acc =>
    if isWsChar c then
      if acc.isEmpty then splitWsAux rest [] else acc.reverse :: splitWsAux rest []
    else splitWsAux rest (c :: acc)

/-- Model of Python's no-argument `str.split()`. -/
def pySplitWs (s : String) : List String := (splitWsAux s.data []).map String.mk

/-- Model of `os.path.join` for two non-empty relative-free components. -/
def ospJoin (a b : String) : String := a ++ "/" ++ b

/-- Model of `os.path.dirname`: everything before the last `/`, or the empty
string when there is no `/`. -/
def dirnameStr (p : String) : String :=
  match p.data.reverse.dropWhile (fun c => !(c == '/')) with
  | [] => ""
  | _ :: rest => String.mk rest.reverse

/-- Model of `os.path.basename`: everything after the last `/`. -/
def basenameStr (p : String) : String :=
  String.mk ((p.data.reverse.takeWhile (fun c => !(c == '/'))).reverse)

/- ## Filesystem / world state -/

/-- Record of one attempted `scp` transfer (`dti_utils.py` line 243). -/
structure NetOp where
  host : String
  remotePath : String
  localPath : String
deriving DecidableEq

/-- Log entries emitted by the worker-side code paths that the claims
mention: a failed fetch (`dti_utils.py` line 246), the missing-key-input
warning (`dti_processing.py` line 231), and the caught per-subject
processing exception (`dti_processing.py` line 264). -/
inductive WLog
  | fetchFailed (localPath : String)
  | inputMissing (subject : String) (path : String)
  | processFailed (subject : String)
deriving DecidableEq

/-- State threaded through the worker-side code: local file contents,
directory existence, the list of attempted network transfers, and the log. -/
structure World where
  files : String → Option String
  dirs : String → Bool
  ops : List NetOp
  logs : List WLog

/-- Model of `os.makedirs(path, exist_ok=True)` for a single directory. -/
def mkdirW (path : String) (w : World) : World :=
  { w with dirs := fun p => if p = path then true else w.dirs p }

/-- Model of `shutil.rmtree(root)`: the directory and everything strictly
under it stop existing. -/
def removeTree (root : String) (w : World) : World :=
  { w with
    files := fun p => if strStarts (root ++ "/") p = true then none else w.files p,
    dirs := fun p => if p = root ∨ strStarts (root ++ "/") p = true then false else w.dirs p }

/-- Model of `subprocess.run(['scp', host:remotePath, localPath], check=True)`
inside `run_command` (`dti_utils.py` lines 29-44): the remote filesystem is a
map from remote paths to optional contents; a missing remote file makes the
command raise `CalledProcessError`. -/
def scpCommand (remote : String → Option String) (remotePath : String) :
    Except String String :=
  match remote remotePath with
  | some c => Except.ok c
  | none => Except.error "CalledProcessError"

/-- Translation of `ensure_remote_file` (`dti_utils.py` lines 229-246).
If `force` or the local file is absent, it creates the parent directory and
attempts the `scp`; the whole body is wrapped in `try/except`, so a transfer
failure only appends an error log and the function always returns. -/
def ensure_remote_file (remote : String → Option String) (w : World)
    (localPath host remotePath : String) (force : Bool) : World :=
  if force || (w.files localPath).isNone then
    let w1 := mkdirW (dirnameStr localPath) w
    match scpCommand remote remotePath with
    | Except.ok c =>
        { w1 with
          files := fun p => if p = localPath then some c else w1.files p,
          ops := w1.ops ++ [⟨host, remotePath, localPath⟩] }
    | Except.error _ =>
        { w1 with
          ops := w1.ops ++ [⟨host, remotePath, localPath⟩],
          logs := w1.logs ++ [WLog.fetchFailed localPath] }
  else w

/-- C6 helper: the empty world used by concrete witnesses. -/
def emptyWorld : World :=
  { files := fun _ => none, dirs := fun _ => false, ops := [], logs := [] }

/-- C6: with `force` unset and the local file present, `ensure_remote_file`
is the identity on the world (no network operation, file unchanged); with
`force` set it always records exactly one new transfer attempt, whether or
not the local file exists. -/
theorem C6_staging_cache :
    (∀ (remote : String → Option String) (w : World) (lp host rp : String),
      (w.files lp).isSome = true →
      ensure_remote_file remote w lp host rp false = w)
    ∧ (∀ (remote : String → Option String) (w : World) (lp host rp : String),
      (ensure_remote_file remote w lp host rp true).ops = w.ops ++ [⟨host, rp, lp⟩]) := by
  constructor
  · intro remote w lp host rp h
    simp [ensure_remote_file, Option.isNone_iff_eq_none]
    intro hnone
    rw [hnone] at h
    simp at h
  · intro remote w lp host rp
    simp only [ensure_remote_file, Bool.true_or, if_pos rfl]
    cases hr : scpCommand remote rp <;> simp [mkdirW]

/-- C6 witness: concrete cache hit (file `/a` present, `force` false) leaves
the world untouched, and a forced call appends one transfer record. -/
theorem C6_staging_cache_witness :
    ((⟨fun p => if p = "/a" then some "x" else none, fun _ => false, [], []⟩ :
        World).files "/a").isSome = true
    ∧ ensure_remote_file (fun _ => none)
        ⟨fun p => if p = "/a" then some "x" else none, fun _ => false, [], []⟩
        "/a" "h" "/r" false
      = ⟨fun p => if p = "/a" then some "x" else none, fun _ => false, [], []⟩
    ∧ (ensure_remote_file (fun _ => none)
        ⟨fun p => if p = "/a" then some "x" else none, fun _ => false, [], []⟩
        "/a" "h" "/r" true).ops = [⟨"h", "/r", "/a"⟩] :=
  ⟨by decide,
   C6_staging_cache.1 (fun _ => none)
     ⟨fun p => if p = "/a" then some "x" else none, fun _ => false, [], []⟩
     "/a" "h" "/r" (by decide),
   C6_staging_cache.2 (fun _ => none)
     ⟨fun p => if p = "/a" then some "x" else none, fun _ => false, [], []⟩
     "/a" "h" "/r"⟩

/- ## Work-item discovery (`get_subjects_to_process`, `dti_utils.py` 153-226) -/

/-- Path of the AP DWI input (`dti_utils.py` line 196). -/
def dtiApPath (bids s sess : String) : String :=
  ospJoin (ospJoin (ospJoin (ospJoin bids s) sess) "dwi")
    (s ++ "_" ++ sess ++ "_dir-ap_run-01_dwi.nii.gz")

/-- Path of the PA DWI input (`dti_utils.py` line 197). -/
def dtiPaPath (bids s sess : String) : String :=
  ospJoin (ospJoin (ospJoin (ospJoin bids s) sess) "dwi")
    (s ++ "_" ++ sess ++ "_dir-pa_run-01_dwi.nii.gz")

/-- Path of the AP fieldmap input (`dti_utils.py` line 198). -/
def fmapApPath (bids s sess : String) : String :=
  ospJoin (ospJoin (ospJoin (ospJoin bids s) sess) "fmap")
    (s ++ "_" ++ sess ++ "_acq-dwisefm_dir-ap_run-01_epi.nii.gz")

/-- Path of the PA fieldmap input (`dti_utils.py` line 199). -/
def fmapPaPath (bids s sess : String) : String :=
  ospJoin (ospJoin (ospJoin (ospJoin bids s) sess) "fmap")
    (s ++ "_" ++ sess ++ "_acq-dwisefm_dir-pa_run-01_epi.nii.gz")

/-- Path of the T1w input (`dti_utils.py` line 200). -/
def t1wPath (bids s sess : String) : String :=
  ospJoin (ospJoin (ospJoin (ospJoin bids s) sess) "anat")
    (s ++ "_" ++ sess ++ "_run-01_T1w.nii.gz")

/-- Path of the final output used as the already-processed check
(`dti_utils.py` line 218). -/
def finalOutputPath (outputDir s sess : String) : String :=
  ospJoin (ospJoin outputDir (s ++ "_" ++ sess)) "dti_fit_data_FA.nii.gz"

/-- Translation of the `missing_inputs` accumulation (`dti_utils.py` lines
202-207): the five existence checks, in source order, each appending one
label when the file is absent.  `ex` is `os.path.exists`. -/
def missingInputs (ex : String → Bool) (bids s sess : String) : List String :=
  (if ex (dtiApPath bids s sess) then [] else ["DWI AP"]) ++
  (if ex (dtiPaPath bids s sess) then [] else ["DWI PA"]) ++
  (if ex (fmapApPath bids s sess) then [] else ["FMAP AP"]) ++
  (if ex (fmapPaPath bids s sess) then [] else ["FMAP PA"]) ++
  (if ex (t1wPath bids s sess) then [] else ["T1w"])

/-- All five required inputs of a candidate exist. -/
def allInputsPresent (ex : String → Bool) (bids s sess : String) : Bool :=
  ex (dtiApPath bids s sess) && ex (dtiPaPath bids s sess) &&
  ex (fmapApPath bids s sess) && ex (fmapPaPath bids s sess) &&
  ex (t1wPath bids s sess)

/-- Branch taken by the per-subject body of the discovery loop
(`dti_utils.py` lines 209-223), as an explicit tag. -/
inductive SubjectClass
  | missingAll
  | missingSome (missing : List String)
  | outputPresent
  | included
deriving DecidableEq

/-- Decision chain of the discovery loop body (`dti_utils.py` lines 209-223):
`len == 5` skips silently, `0 < len < 5` skips with a diagnostic, an existing
final output skips, otherwise the subject is included. -/
def classifySubject (ex : String → Bool) (bids outputDir sess s : String) :
    SubjectClass :=
  if (missingInputs ex bids s sess).length = 5 then SubjectClass.missingAll
  else if (missingInputs ex bids s sess).length < 5 ∧ 0 < (missingInputs ex bids s sess).length then
    SubjectClass.missingSome (missingInputs ex bids s sess)
  else if ex (finalOutputPath outputDir s sess) then SubjectClass.outputPresent
  else SubjectClass.included

/-- Skip messages of the discovery loop with the logger level used by the
source: `logger.debug` for missing-all (line 211) and existing output (line
220), `logger.info` for partial missing inputs (line 214).  With
`logging.basicConfig(level=logging.INFO)` (`dti_utils.py` line 11) only the
info-level entry is emitted. -/
inductive DiscoveryLog
  | skipMissingAll (subject : String)
  | skipMissingSome (subject : String) (missing : List String)
  | skipOutputPresent (subject : String)
deriving DecidableEq

/-- Subject a discovery log entry is about. -/
def DiscoveryLog.subjectOf : DiscoveryLog → String
  | DiscoveryLog.skipMissingAll s => s
  | DiscoveryLog.skipMissingSome s _ => s
  | DiscoveryLog.skipOutputPresent s => s

/-- Whether the entry is visible at the configured INFO logging level
(`dti_utils.py` line 11): only `logger.info` calls are; the two
`logger.debug` skips are suppressed. -/
def DiscoveryLog.emitted : DiscoveryLog → Bool
  | DiscoveryLog.skipMissingAll _ => false
  | DiscoveryLog.skipMissingSome _ _ => true
  | DiscoveryLog.skipOutputPresent _ => false

/-- Translation of the local scan loop of `get_subjects_to_process`
(`dti_utils.py` lines 188-223) over the enumerated candidate list, returning
the subjects to process together with the skip log. -/
def scanLocal (ex : String → Bool) (bids outputDir sess : String) :
    List String → List String × List DiscoveryLog
  | [] => ([], [])
  | s :: rest =>
    let r := scanLocal ex bids outputDir sess rest
    match classifySubject ex bids outputDir sess s with
    | SubjectClass.missingAll => (r.1, DiscoveryLog.skipMissingAll s :: r.2)
    | SubjectClass.missingSome m => (r.1, DiscoveryLog.skipMissingSome s m :: r.2)
    | SubjectClass.outputPresent => (r.1, DiscoveryLog.skipOutputPresent s :: r.2)
    | SubjectClass.included => (s :: r.1, r.2)

/-- Parsing of one line of the remote scan output (`dti_utils.py` lines
127-144): only stripped non-empty `FOUND:` lines contribute a subject. -/
def parseScanLine (line : String) : Option String :=
  let l := pyStrip line
  if l.data.isEmpty then none
  else if strStarts "FOUND:" l then some ((pySplitChar ':' l).getD 1 "")
  else none

/-- Translation of `get_subjects_from_remote` (`dti_utils.py` lines 63-150)
with the remote shell command's outcome as a parameter: `none` models the
`ssh` invocation raising, in which case the `except` clause returns `[]`;
otherwise the output lines are parsed and the `FOUND:` subjects collected. -/
def get_subjects_from_remote (scanOutput : Option String) : List String :=
  match scanOutput with
  | none => []
  | some out => (pySplitChar '\n' out).filterMap parseScanLine

/-- Translation of `get_subjects_to_process` (`dti_utils.py` lines 153-226):
when the BIDS directory is absent locally it falls back to the remote scan
(or returns `[]` without a remote host); otherwise it runs the local scan
loop over the enumerated `sub-*` candidates. -/
def get_subjects_to_process (bidsDirPresent : Bool) (remoteHost : Option String)
    (scanOutput : Option String) (ex : String → Bool) (catalog : List String)
    (bids outputDir sess : String) : List String :=
  if bidsDirPresent then (scanLocal ex bids outputDir sess catalog).1
  else
    match remoteHost with
    | some _ => get_subjects_from_remote scanOutput
    | none => []

/-- Eligibility predicate the claim states: all five required inputs exist
and the output target does not. -/
def eligibleSubject (ex : String → Bool) (bids outputDir sess s : String) : Bool :=
  allInputsPresent ex bids s sess && !ex (finalOutputPath outputDir s sess)

theorem classify_included_iff (ex : String → Bool) (bids out sess s : String) :
    classifySubject ex bids out sess s = SubjectClass.included ↔
    eligibleSubject ex bids out sess s = true := by
  unfold classifySubject eligibleSubject allInputsPresent missingInputs
  cases h1 : ex (dtiApPath bids s sess) <;>
  cases h2 : ex (dtiPaPath bids s sess) <;>
  cases h3 : ex (fmapApPath bids s sess) <;>
  cases h4 : ex (fmapPaPath bids s sess) <;>
  cases h5 : ex (t1wPath bids s sess) <;>
  cases h6 : ex (finalOutputPath out s sess) <;>
  simp

theorem missingInputs_nil_of_eligible (ex : String → Bool) (bids out sess s : String)
    (h : eligibleSubject ex bids out sess s = true) :
    (missingInputs ex bids s sess).length = 0 := by
  unfold eligibleSubject allInputsPresent at h
  unfold missingInputs
  cases h1 : ex (dtiApPath bids s sess) <;>
  cases h2 : ex (dtiPaPath bids s sess) <;>
  cases h3 : ex (fmapApPath bids s sess) <;>
  cases h4 : ex (fmapPaPath bids s sess) <;>
  cases h5 : ex (t1wPath bids s sess) <;>
  simp_all

theorem classify_missingSome_eq (ex : String → Bool) (bids out sess s : String)
    (h1 : 0 < (missingInputs ex bids s sess).length)
    (h2 : (missingInputs ex bids s sess).length < 5) :
    classifySubject ex bids out sess s
      = SubjectClass.missingSome (missingInputs ex bids s sess) := by
  unfold classifySubject
  rw [if_neg (by omega), if_pos ⟨h2, h1⟩]

theorem classify_missingAll_eq (ex : String → Bool) (bids out sess s : String)
    (h : (missingInputs ex bids s sess).length = 5) :
    classifySubject ex bids out sess s = SubjectClass.missingAll := by
  unfold classifySubject
  rw [if_pos h]

theorem eligible_false_of_not_included (ex : String → Bool) (bids out sess s : String)
    (h : classifySubject ex bids out sess s ≠ SubjectClass.included) :
    eligibleSubject ex bids out sess s = false := by
  cases hp : eligibleSubject ex bids out sess s
  · rfl
  · exact absurd ((classify_included_iff ex bids out sess s).mpr hp) h

theorem scanLocal_fst (ex : String → Bool) (bids out sess : String)
    (catalog : List String) :
    (scanLocal ex bids out sess catalog).1
      = catalog.filter (fun s => eligibleSubject ex bids out sess s) := by
  induction catalog with
  | nil => rfl
  | cons a rest ih =>
    cases hc : classifySubject ex bids out sess a with
    | included =>
      have hp := (classify_included_iff ex bids out sess a).mp hc
      simp [scanLocal, hc, List.filter_cons, hp, ih]
    | missingAll =>
      have hp := eligible_false_of_not_included ex bids out sess a (by simp [hc])
      simp [scanLocal, hc, List.filter_cons, hp, ih]
    | missingSome m =>
      have hp := eligible_false_of_not_included ex bids out sess a (by simp [hc])
      simp [scanLocal, hc, List.filter_cons, hp, ih]
    | outputPresent =>
      have hp := eligible_false_of_not_included ex bids out sess a (by simp [hc])
      simp [scanLocal, hc, List.filter_cons, hp, ih]

theorem scanLocal_missingSome_log (ex : String → Bool) (bids out sess : String)
    (catalog : List String) :
    ∀ s ∈ catalog, 0 < (missingInputs ex bids s sess).length →
      (missingInputs ex bids s sess).length < 5 →
      DiscoveryLog.skipMissingSome s (missingInputs ex bids s sess)
        ∈ (scanLocal ex bids out sess catalog).2 := by
  induction catalog with
  | nil => intro s hs; simp at hs
  | cons a rest ih =>
    intro s hs h1 h2
    rcases List.mem_cons.mp hs with rfl | hmem
    · have hc := classify_missingSome_eq ex bids out sess s h1 h2
      simp [scanLocal, hc]
    · have htail := ih s hmem h1 h2
      cases hc : classifySubject ex bids out sess a <;> simp [scanLocal, hc, htail]

theorem scanLocal_emitted_inv (ex : String → Bool) (bids out sess : String)
    (catalog : List String) :
    ∀ entry ∈ (scanLocal ex bids out sess catalog).2, entry.emitted = true →
      0 < (missingInputs ex bids entry.subjectOf sess).length
      ∧ (missingInputs ex bids entry.subjectOf sess).length < 5 := by
  induction catalog with
  | nil => intro entry he; simp [scanLocal] at he
  | cons a rest ih =>
    intro entry he hem
    cases hc : classifySubject ex bids out sess a with
    | included =>
      simp only [scanLocal, hc] at he
      exact ih entry he hem
    | missingAll =>
      simp [scanLocal, hc] at he
      rcases he with rfl | he
      · simp [DiscoveryLog.emitted] at hem
      · exact ih entry he hem
    | outputPresent =>
      simp [scanLocal, hc] at he
      rcases he with rfl | he
      · simp [DiscoveryLog.emitted] at hem
      · exact ih entry he hem
    | missingSome m =>
      simp [scanLocal, hc] at he
      rcases he with rfl | he
      · have : ¬ (missingInputs ex bids a sess).length = 5 := by
          intro h5
          rw [classify_missingAll_eq ex bids out sess a h5] at hc
          cases hc
        have hrange : (missingInputs ex bids a sess).length < 5
            ∧ 0 < (missingInputs ex bids a sess).length := by
          by_contra hcon
          unfold classifySubject at hc
          rw [if_neg this, if_neg hcon] at hc
          split at hc <;> cases hc
        exact ⟨hrange.2, hrange.1⟩
      · exact ih entry he hem

/-- C2: for every candidate in the catalog, discovery includes it exactly
when all five required inputs exist and the output target does not (the
result being the order-preserving filter of the catalog); a candidate with
some but not all inputs missing is skipped and an info-level diagnostic
naming it is recorded; a candidate with all inputs missing is skipped with
no log entry about it visible at the configured INFO level. -/
theorem C2_discovery_filter (ex : String → Bool) (bids outputDir sess : String)
    (catalog : List String) (remoteHost : Option String) (scanOutput : Option String) :
    get_subjects_to_process true remoteHost scanOutput ex catalog bids outputDir sess
      = catalog.filter (fun s => eligibleSubject ex bids outputDir sess s)
    ∧ (∀ s ∈ catalog, 0 < (missingInputs ex bids s sess).length →
        (missingInputs ex bids s sess).length < 5 →
        DiscoveryLog.skipMissingSome s (missingInputs ex bids s sess)
          ∈ (scanLocal ex bids outputDir sess catalog).2
        ∧ (DiscoveryLog.skipMissingSome s (missingInputs ex bids s sess)).emitted = true
        ∧ s ∉ get_subjects_to_process true remoteHost scanOutput ex catalog bids outputDir sess)
    ∧ (∀ s ∈ catalog, (missingInputs ex bids s sess).length = 5 →
        (∀ entry ∈ (scanLocal ex bids outputDir sess catalog).2,
          entry.subjectOf = s → entry.emitted = false)
        ∧ s ∉ get_subjects_to_process true remoteHost scanOutput ex catalog bids outputDir sess) := by
  have hres : get_subjects_to_process true remoteHost scanOutput ex catalog bids outputDir sess
      = catalog.filter (fun s => eligibleSubject ex bids outputDir sess s) := by
    simpa [get_subjects_to_process] using scanLocal_fst ex bids outputDir sess catalog
  have hnotmem : ∀ s : String, (missingInputs ex bids s sess).length ≠ 0 →
      s ∉ get_subjects_to_process true remoteHost scanOutput ex catalog bids outputDir sess := by
    intro s hlen hmem
    rw [hres] at hmem
    have := List.of_mem_filter hmem
    exact hlen (missingInputs_nil_of_eligible ex bids outputDir sess s this)
  refine ⟨hres, ?_, ?_⟩
  · intro s hs h1 h2
    exact ⟨scanLocal_missingSome_log ex bids outputDir sess catalog s hs h1 h2,
      rfl, hnotmem s (by omega)⟩
  · intro s hs h5
    refine ⟨?_, hnotmem s (by omega)⟩
    intro entry he hsub
    cases hem : entry.emitted
    · rfl
    · have := scanLocal_emitted_inv ex bids outputDir sess catalog entry he hem
      rw [hsub] at this
      omega

/-- C2 witness helper: local filesystem with all five inputs of `sub-A`
present and four of the five inputs of `sub-B` present (T1w missing). -/
def exC2 : String → Bool := fun p =>
  p == dtiApPath "/b" "sub-A" "ses-01" || p == dtiPaPath "/b" "sub-A" "ses-01" ||
  p == fmapApPath "/b" "sub-A" "ses-01" || p == fmapPaPath "/b" "sub-A" "ses-01" ||
  p == t1wPath "/b" "sub-A" "ses-01" ||
  p == dtiApPath "/b" "sub-B" "ses-01" || p == dtiPaPath "/b" "sub-B" "ses-01" ||
  p == fmapApPath "/b" "sub-B" "ses-01" || p == fmapPaPath "/b" "sub-B" "ses-01"

/-- C2 witness: the spec's Scenario A — catalog `[sub-A, sub-B]` with `sub-A`
complete and `sub-B` missing one input gives result `[sub-A]`, with an
emitted diagnostic for `sub-B`. -/
theorem C2_discovery_filter_witness :
    0 < (missingInputs exC2 "/b" "sub-B" "ses-01").length
    ∧ (missingInputs exC2 "/b" "sub-B" "ses-01").length < 5
    ∧ get_subjects_to_process true none none exC2 ["sub-A", "sub-B"] "/b" "/o" "ses-01"
        = List.filter (fun s => eligibleSubject exC2 "/b" "/o" "ses-01" s) ["sub-A", "sub-B"]
    ∧ get_subjects_to_process true none none exC2 ["sub-A", "sub-B"] "/b" "/o" "ses-01"
        = ["sub-A"]
    ∧ (DiscoveryLog.skipMissingSome "sub-B" (missingInputs exC2 "/b" "sub-B" "ses-01")
          ∈ (scanLocal exC2 "/b" "/o" "ses-01" ["sub-A", "sub-B"]).2
        ∧ (DiscoveryLog.skipMissingSome "sub-B"
            (missingInputs exC2 "/b" "sub-B" "ses-01")).emitted = true
        ∧ "sub-B" ∉ get_subjects_to_process true none none exC2 ["sub-A", "sub-B"]
            "/b" "/o" "ses-01") :=
  ⟨by decide, by decide,
   (C2_discovery_filter exC2 "/b" "/o" "ses-01" ["sub-A", "sub-B"] none none).1,
   by decide,
   (C2_discovery_filter exC2 "/b" "/o" "ses-01" ["sub-A", "sub-B"] none none).2.1
     "sub-B" (by decide) (by decide) (by decide)⟩

/- ## Worker executor (`process_subject`, `dti_processing.py` 147-271) -/

/-- Names of the six pipeline stages invoked by `process_subject`
(`dti_processing.py` lines 239-258), in execution order. -/
inductive StageName
  | prepareTopupFiles
  | runTopup
  | prepareEddyFiles
  | runEddy
  | processT1Mask
  | runDtifit
deriving DecidableEq

/-- Stage execution order of `process_subject` (`dti_processing.py` lines
237-258). -/
def stageOrder : List StageName :=
  [StageName.prepareTopupFiles, StageName.runTopup, StageName.prepareEddyFiles,
   StageName.runEddy, StageName.processT1Mask, StageName.runDtifit]

/-- Fail-fast execution of the stage sequence: each external stage either
succeeds or raises (modeled by the `fails` oracle); the first raising stage
aborts the rest (`dti_processing.py` lines 237-258, outcomes of the FSL
tool invocations are opaque to the orchestration layer). -/
def runStages (fails : StageName → Bool) : List StageName → Except StageName Unit
  | [] => Except.ok ()
  | s :: rest => if fails s then Except.error s else runStages fails rest

/-- Configuration slice of the `config` dict that `process_subject` unpacks
(`dti_processing.py` lines 155-161). -/
structure WorkerConfig where
  bidsDir : String
  outputDir : String
  session : String
  remoteHost : Option String
  forceRemote : Bool

/-- Basename of the AP DWI file (`dti_processing.py` line 175). -/
def dwiApName (s sess : String) : String := s ++ "_" ++ sess ++ "_dir-ap_run-01_dwi.nii.gz"

/-- The nine staged inputs as (category folder, basename) pairs, in the
fetch order of `dti_processing.py` lines 208-216. -/
def workerInputs (s sess : String) : List (String × String) :=
  [("fmap", s ++ "_" ++ sess ++ "_acq-dwisefm_dir-ap_run-01_epi.nii.gz"),
   ("fmap", s ++ "_" ++ sess ++ "_acq-dwisefm_dir-pa_run-01_epi.nii.gz"),
   ("dwi", dwiApName s sess),
   ("dwi", s ++ "_" ++ sess ++ "_dir-pa_run-01_dwi.nii.gz"),
   ("dwi", s ++ "_" ++ sess ++ "_dir-ap_run-01_dwi.bval"),
   ("dwi", s ++ "_" ++ sess ++ "_dir-pa_run-01_dwi.bval"),
   ("dwi", s ++ "_" ++ sess ++ "_dir-ap_run-01_dwi.bvec"),
   ("dwi", s ++ "_" ++ sess ++ "_dir-pa_run-01_dwi.bvec"),
   ("anat", s ++ "_" ++ sess ++ "_run-01_T1w.nii.gz")]

/-- Canonical (remote-side) path of one staged input, following the BIDS
template of `dti_processing.py` lines 169-183. -/
def canonicalInputPath (bids s sess cat name : String) : String :=
  ospJoin (ospJoin (ospJoin (ospJoin bids s) sess) cat) name

/-- Item-scoped output folder (`dti_processing.py` line 186). -/
def subjectFolder (outputDir s sess : String) : String :=
  ospJoin outputDir (s ++ "_" ++ sess)

/-- Item-scoped temporary staging directory (`dti_processing.py` line 193). -/
def tempInputDir (outputDir s sess : String) : String :=
  ospJoin (subjectFolder outputDir s sess) "temp_BIDS"

/-- Staging loop of `process_subject` (`dti_processing.py` lines 207-216):
each of the nine inputs is fetched into the temporary directory through
`ensure_remote_file` with the configured force flag. -/
def stageWorkerInputs (remote : String → Option String) (host bids s sess tempDir : String)
    (force : Bool) (inputs : List (String × String)) (w : World) : World :=
  inputs.foldl (fun acc p =>
    ensure_remote_file remote acc (ospJoin tempDir p.2) host
      (canonicalInputPath bids s sess p.1 p.2) force) w

/-- Body of `process_subject` after staging: the key-input presence check
(`dti_processing.py` lines 230-232, `return False` with a warning when the
AP DWI file is absent) followed by the fail-fast stage pipeline; a stage
exception is caught by the `except` clause and turned into `False` with an
error log (`dti_processing.py` lines 263-265). -/
def workerBody (fails : StageName → Bool) (subject keyPath : String) (w : World) :
    Bool × World :=
  if (w.files keyPath).isNone then
    (false, { w with logs := w.logs ++ [WLog.inputMissing subject keyPath] })
  else
    match runStages fails stageOrder with
    | Except.ok _ => (true, w)
    | Except.error _ => (false, { w with logs := w.logs ++ [WLog.processFailed subject] })

/-- Cleanup clause of `process_subject` (`dti_processing.py` lines 266-271):
`finally`, if the temporary staging directory was created and exists, it is
removed with `shutil.rmtree`. -/
def cleanupTemp (tempDir : String) (w : World) : World :=
  if w.dirs tempDir then removeTree tempDir w else w

/-- Translation of `process_subject` (`dti_processing.py` lines 147-271).
With a remote host, the staging directory is created, the nine inputs are
staged, the body runs, and the `finally` clause releases the staging
directory on every path; without one, the body runs against the canonical
local paths and `temp_input_dir` stays `None`, so the `finally` clause does
nothing.  The external stage invocations are modeled by their
success/failure outcomes only, since no claim depends on the files they
produce. -/
def process_subject (cfg : WorkerConfig) (remote : String → Option String)
    (fails : StageName → Bool) (subject : String) (w0 : World) : Bool × World :=
  let folder := subjectFolder cfg.outputDir subject cfg.session
  let w1 := mkdirW folder w0
  match cfg.remoteHost with
  | some host =>
    let tempDir := tempInputDir cfg.outputDir subject cfg.session
    let w2 := mkdirW tempDir w1
    let w3 := stageWorkerInputs remote host cfg.bidsDir subject cfg.session tempDir
      cfg.forceRemote (workerInputs subject cfg.session) w2
    let r := workerBody fails subject (ospJoin tempDir (dwiApName subject cfg.session)) w3
    (r.1, cleanupTemp tempDir r.2)
  | none =>
    workerBody fails subject
      (canonicalInputPath cfg.bidsDir subject cfg.session "dwi" (dwiApName subject cfg.session)) w1

theorem ensure_dirs_mono (remote : String → Option String) (w : World)
    (lp host rp : String) (force : Bool) (q : String) (h : w.dirs q = true) :
    (ensure_remote_file remote w lp host rp force).dirs q = true := by
  unfold ensure_remote_file
  split
  · cases hc : scpCommand remote rp <;> simp [hc, mkdirW, h]
  · exact h

theorem stageInputs_dirs_mono (remote : String → Option String)
    (host bids s sess tempDir : String) (force : Bool)
    (inputs : List (String × String)) (w : World) (q : String) (h : w.dirs q = true) :
    (stageWorkerInputs remote host bids s sess tempDir force inputs w).dirs q = true := by
  induction inputs generalizing w with
  | nil => exact h
  | cons a rest ih =>
    simp only [stageWorkerInputs, List.foldl_cons]
    exact ih _ (ensure_dirs_mono remote w _ host _ force q h)

theorem workerBody_dirs (fails : StageName → Bool) (subject keyPath : String) (w : World) :
    (workerBody fails subject keyPath w).2.dirs = w.dirs := by
  unfold workerBody
  split
  · rfl
  · split <;> rfl

theorem cleanupTemp_clears (td : String) (w : World) (h : w.dirs td = true) :
    (cleanupTemp td w).dirs td = false
    ∧ ∀ p, strStarts (td ++ "/") p = true → (cleanupTemp td w).files p = none := by
  unfold cleanupTemp
  rw [if_pos h]
  refine ⟨by simp [removeTree], ?_⟩
  intro p hp
  simp [removeTree, hp]

/-- C3: with a remote host configured, after `process_subject` returns — on
success, on the missing-input early return, and on any stage raising — the
item's temporary staging subdirectory and everything under it no longer
exist, for every initial filesystem state and every combination of fetch
and stage outcomes. -/
theorem C3_staging_cleanup (cfg : WorkerConfig) (remote : String → Option String)
    (fails : StageName → Bool) (subject : String) (w0 : World) (host : String)
    (hr : cfg.remoteHost = some host) :
    (process_subject cfg remote fails subject w0).2.dirs
        (tempInputDir cfg.outputDir subject cfg.session) = false
    ∧ ∀ p, strStarts (tempInputDir cfg.outputDir subject cfg.session ++ "/") p = true →
        (process_subject cfg remote fails subject w0).2.files p = none := by
  have hd2 : (workerBody fails subject
      (ospJoin (tempInputDir cfg.outputDir subject cfg.session) (dwiApName subject cfg.session))
      (stageWorkerInputs remote host cfg.bidsDir subject cfg.session
        (tempInputDir cfg.outputDir subject cfg.session) cfg.forceRemote
        (workerInputs subject cfg.session)
        (mkdirW (tempInputDir cfg.outputDir subject cfg.session)
          (mkdirW (subjectFolder cfg.outputDir subject cfg.session) w0)))).2.dirs
      (tempInputDir cfg.outputDir subject cfg.session) = true := by
    rw [workerBody_dirs]
    exact stageInputs_dirs_mono remote host cfg.bidsDir subject cfg.session
      (tempInputDir cfg.outputDir subject cfg.session) cfg.forceRemote
      (workerInputs subject cfg.session) _ _ (by simp [mkdirW])
  simp only [process_subject, hr]
  exact cleanupTemp_clears _ _ hd2

/-- C3 witness: a concrete remote-configured invocation ends with the
staging directory and a file under it absent. -/
theorem C3_staging_cleanup_witness :
    strStarts (tempInputDir "/o" "sub-1" "ses-01" ++ "/") (tempInputDir "/o" "sub-1" "ses-01" ++ "/f") = true
    ∧ (process_subject ⟨"/b", "/o", "ses-01", some "h", true⟩ (fun _ => none)
        (fun _ => false) "sub-1" emptyWorld).2.dirs (tempInputDir "/o" "sub-1" "ses-01") = false
    ∧ (process_subject ⟨"/b", "/o", "ses-01", some "h", true⟩ (fun _ => none)
        (fun _ => false) "sub-1" emptyWorld).2.files
        (tempInputDir "/o" "sub-1" "ses-01" ++ "/f") = none :=
  ⟨by decide,
   (C3_staging_cleanup ⟨"/b", "/o", "ses-01", some "h", true⟩ (fun _ => none)
     (fun _ => false) "sub-1" emptyWorld "h" rfl).1,
   (C3_staging_cleanup ⟨"/b", "/o", "ses-01", some "h", true⟩ (fun _ => none)
     (fun _ => false) "sub-1" emptyWorld "h" rfl).2
     (tempInputDir "/o" "sub-1" "ses-01" ++ "/f") (by decide)⟩

theorem ensure_files_allfail (remote : String → Option String) (w : World)
    (lp host rp : String) (force : Bool) (hremote : remote rp = none) :
    (ensure_remote_file remote w lp host rp force).files = w.files := by
  unfold ensure_remote_file
  split
  · simp [scpCommand, hremote, mkdirW]
  · rfl

theorem ensure_ops_force (remote : String → Option String) (w : World)
    (lp host rp : String) :
    (ensure_remote_file remote w lp host rp true).ops = w.ops ++ [⟨host, rp, lp⟩] := by
  simp only [ensure_remote_file, Bool.true_or, if_pos rfl]
  cases hr : scpCommand remote rp <;> simp [mkdirW]

theorem ensure_logs_allfail_force (remote : String → Option String) (w : World)
    (lp host rp : String) (hremote : remote rp = none) :
    (ensure_remote_file remote w lp host rp true).logs
      = w.logs ++ [WLog.fetchFailed lp] := by
  simp only [ensure_remote_file, Bool.true_or, if_pos rfl]
  simp [scpCommand, hremote, mkdirW]

theorem stageInputs_files_allfail (remote : String → Option String)
    (host bids s sess tempDir : String) (force : Bool)
    (inputs : List (String × String)) (w : World)
    (hremote : ∀ p, remote p = none) :
    (stageWorkerInputs remote host bids s sess tempDir force inputs w).files = w.files := by
  induction inputs generalizing w with
  | nil => rfl
  | cons a rest ih =>
    rw [show stageWorkerInputs remote host bids s sess tempDir force (a :: rest) w
        = stageWorkerInputs remote host bids s sess tempDir force rest
            (ensure_remote_file remote w (ospJoin tempDir a.2) host
              (canonicalInputPath bids s sess a.1 a.2) force) from rfl]
    rw [ih, ensure_files_allfail remote w _ host _ force (hremote _)]

theorem stageInputs_ops_force (remote : String → Option String)
    (host bids s sess tempDir : String) (inputs : List (String × String)) (w : World) :
    (stageWorkerInputs remote host bids s sess tempDir true inputs w).ops
      = w.ops ++ inputs.map (fun p =>
          (⟨host, canonicalInputPath bids s sess p.1 p.2, ospJoin tempDir p.2⟩ : NetOp)) := by
  induction inputs generalizing w with
  | nil => simp [stageWorkerInputs]
  | cons a rest ih =>
    rw [show stageWorkerInputs remote host bids s sess tempDir true (a :: rest) w
        = stageWorkerInputs remote host bids s sess tempDir true rest
            (ensure_remote_file remote w (ospJoin tempDir a.2) host
              (canonicalInputPath bids s sess a.1 a.2) true) from rfl]
    rw [ih, ensure_ops_force]
    simp

theorem stageInputs_logs_allfail_force (remote : String → Option String)
    (host bids s sess tempDir : String) (inputs : List (String × String)) (w : World)
    (hremote : ∀ p, remote p = none) :
    (stageWorkerInputs remote host bids s sess tempDir true inputs w).logs
      = w.logs ++ inputs.map (fun p => WLog.fetchFailed (ospJoin tempDir p.2)) := by
  induction inputs generalizing w with
  | nil => simp [stageWorkerInputs]
  | cons a rest ih =>
    rw [show stageWorkerInputs remote host bids s sess tempDir true (a :: rest) w
        = stageWorkerInputs remote host bids s sess tempDir true rest
            (ensure_remote_file remote w (ospJoin tempDir a.2) host
              (canonicalInputPath bids s sess a.1 a.2) true) from rfl]
    rw [ih, ensure_logs_allfail_force remote w _ host _ (hremote _)]
    simp

theorem cleanupTemp_ops (td : String) (w : World) : (cleanupTemp td w).ops = w.ops := by
  unfold cleanupTemp
  split <;> rfl

theorem cleanupTemp_logs (td : String) (w : World) : (cleanupTemp td w).logs = w.logs := by
  unfold cleanupTemp
  split <;> rfl

/-- C9: when every remote fetch fails (and the key input is not already
staged), `process_subject` still returns normally with the per-item failure
value `False`: all nine transfers are attempted in order (none raises out of
`ensure_remote_file`), the fetch failures are logged, and control reaches
the input-presence check, which logs the missing input — the failure
surfaces only as that item's failure. -/
theorem C9_staging_failure_degrades (cfg : WorkerConfig)
    (remote : String → Option String) (fails : StageName → Bool)
    (subject : String) (w0 : World) (host : String)
    (hr : cfg.remoteHost = some host) (hf : cfg.forceRemote = true)
    (hremote : ∀ p, remote p = none)
    (hlocal : w0.files (ospJoin (tempInputDir cfg.outputDir subject cfg.session)
        (dwiApName subject cfg.session)) = none) :
    (process_subject cfg remote fails subject w0).1 = false
    ∧ (process_subject cfg remote fails subject w0).2.ops
        = w0.ops ++ (workerInputs subject cfg.session).map (fun p =>
            (⟨host, canonicalInputPath cfg.bidsDir subject cfg.session p.1 p.2,
              ospJoin (tempInputDir cfg.outputDir subject cfg.session) p.2⟩ : NetOp))
    ∧ WLog.fetchFailed (ospJoin (tempInputDir cfg.outputDir subject cfg.session)
        (dwiApName subject cfg.session)) ∈ (process_subject cfg remote fails subject w0).2.logs
    ∧ WLog.inputMissing subject (ospJoin (tempInputDir cfg.outputDir subject cfg.session)
        (dwiApName subject cfg.session)) ∈ (process_subject cfg remote fails subject w0).2.logs := by
  simp only [process_subject, hr, hf]
  set TD := tempInputDir cfg.outputDir subject cfg.session with hTD
  set KEY := ospJoin TD (dwiApName subject cfg.session) with hKEY
  set W2 := mkdirW TD (mkdirW (subjectFolder cfg.outputDir subject cfg.session) w0) with hW2
  set W3 := stageWorkerInputs remote host cfg.bidsDir subject cfg.session TD true
    (workerInputs subject cfg.session) W2 with hW3
  have hW2ops : W2.ops = w0.ops := rfl
  have hW2logs : W2.logs = w0.logs := rfl
  have hW2files : W2.files = w0.files := rfl
  have hfiles3 : W3.files KEY = none := by
    rw [hW3, stageInputs_files_allfail remote host cfg.bidsDir subject cfg.session TD true
      (workerInputs subject cfg.session) W2 hremote, hW2files, hKEY, hTD]
    exact hlocal
  have hbody : workerBody fails subject KEY W3
      = (false, { W3 with logs := W3.logs ++ [WLog.inputMissing subject KEY] }) := by
    simp [workerBody, hfiles3]
  have hl : W3.logs = w0.logs ++ (workerInputs subject cfg.session).map
      (fun p => WLog.fetchFailed (ospJoin TD p.2)) := by
    rw [hW3, stageInputs_logs_allfail_force remote host cfg.bidsDir subject cfg.session TD
      (workerInputs subject cfg.session) W2 hremote, hW2logs]
  rw [hbody]
  refine ⟨rfl, ?_, ?_, ?_⟩
  · show (cleanupTemp TD { W3 with logs := W3.logs ++ [WLog.inputMissing subject KEY] }).ops = _
    rw [cleanupTemp_ops]
    show W3.ops = _
    rw [hW3, stageInputs_ops_force remote host cfg.bidsDir subject cfg.session TD
      (workerInputs subject cfg.session) W2, hW2ops]
  · show WLog.fetchFailed KEY ∈
      (cleanupTemp TD { W3 with logs := W3.logs ++ [WLog.inputMissing subject KEY] }).logs
    rw [cleanupTemp_logs]
    show WLog.fetchFailed KEY ∈ W3.logs ++ [WLog.inputMissing subject KEY]
    rw [hl]
    have hmem : ("dwi", dwiApName subject cfg.session) ∈ workerInputs subject cfg.session := by
      simp [workerInputs]
    refine List.mem_append.mpr (Or.inl (List.mem_append.mpr (Or.inr ?_)))
    exact List.mem_map.mpr ⟨("dwi", dwiApName subject cfg.session), hmem, by rw [hKEY]⟩
  · show WLog.inputMissing subject KEY ∈
      (cleanupTemp TD { W3 with logs := W3.logs ++ [WLog.inputMissing subject KEY] }).logs
    rw [cleanupTemp_logs]
    show WLog.inputMissing subject KEY ∈ W3.logs ++ [WLog.inputMissing subject KEY]
    simp

/-- C9 witness: a concrete invocation in which every fetch fails returns the
per-item failure, attempted all nine transfers, and logged both the fetch
failure and the missing key input. -/
theorem C9_staging_failure_degrades_witness :
    (process_subject ⟨"/b", "/o", "ses-01", some "h", true⟩ (fun _ => none)
        (fun _ => false) "sub-1" emptyWorld).1 = false
    ∧ (process_subject ⟨"/b", "/o", "ses-01", some "h", true⟩ (fun _ => none)
        (fun _ => false) "sub-1" emptyWorld).2.ops
        = emptyWorld.ops ++ (workerInputs "sub-1" "ses-01").map (fun p =>
            (⟨"h", canonicalInputPath "/b" "sub-1" "ses-01" p.1 p.2,
              ospJoin (tempInputDir "/o" "sub-1" "ses-01") p.2⟩ : NetOp))
    ∧ WLog.fetchFailed (ospJoin (tempInputDir "/o" "sub-1" "ses-01")
        (dwiApName "sub-1" "ses-01"))
        ∈ (process_subject ⟨"/b", "/o", "ses-01", some "h", true⟩ (fun _ => none)
            (fun _ => false) "sub-1" emptyWorld).2.logs
    ∧ WLog.inputMissing "sub-1" (ospJoin (tempInputDir "/o" "sub-1" "ses-01")
        (dwiApName "sub-1" "ses-01"))
        ∈ (process_subject ⟨"/b", "/o", "ses-01", some "h", true⟩ (fun _ => none)
            (fun _ => false) "sub-1" emptyWorld).2.logs :=
  C9_staging_failure_degrades ⟨"/b", "/o", "ses-01", some "h", true⟩ (fun _ => none)
    (fun _ => false) "sub-1" emptyWorld "h" rfl rfl (fun _ => rfl) rfl

/- ## Worker mode of `main` (`dti_processing.py` 327-360) and the marker -/

/-- Marker directory (`dti_processing.py` line 350). -/
def markerDirPath (outputDir : String) : String := ospJoin outputDir "status"

/-- Per-subject completion marker file (`dti_processing.py` line 352). -/
def markerPath (outputDir subject : String) : String :=
  ospJoin (markerDirPath outputDir) (subject ++ ".done")

/-- Translation of the marker write (`dti_processing.py` lines 350-353):
`os.makedirs(marker_dir, exist_ok=True)` then `open(path, 'w')` — Python's
truncating write mode — storing the current timestamp.  The open never fails
on an existing file; it replaces the previous contents. -/
def writeMarker (outputDir subject now : String) (w : World) : World :=
  { mkdirW (markerDirPath outputDir) w with
    files := fun p => if p = markerPath outputDir subject then some now else w.files p }

/-- Outcome of one worker-mode process: its exit code and whether the
completion marker write was performed. -/
structure WorkerOutcome where
  exitCode : Nat
  markerWritten : Bool
deriving DecidableEq

/-- Translation of worker mode (`dti_processing.py` lines 327-360): missing
`--subjects_list` or missing `SLURM_ARRAY_TASK_ID` exit 1; a failed read of
the work list is caught by the `except` and exits 1; an out-of-range index
exits 1 (`sys.exit` raises `SystemExit`, which `except Exception` does not
catch); otherwise the selected subject is processed and the marker is
written only when `process_subject` returned `True`, after which `main`
falls through and the process exits 0. -/
def workerMode (cfg : WorkerConfig) (remote : String → Option String)
    (fails : StageName → Bool) (subjectsArg : Option String) (taskId : Option Int)
    (fileContents : Option (List String)) (now : String) (w0 : World) :
    WorkerOutcome × World :=
  match subjectsArg with
  | none => (⟨1, false⟩, w0)
  | some _ =>
    match taskId with
    | none => (⟨1, false⟩, w0)
    | some t =>
      match fileContents with
      | none => (⟨1, false⟩, w0)
      | some subjects =>
        if 0 ≤ t - 1 ∧ t - 1 < (subjects.length : Int) then
          let subject := subjects.getD (t - 1).toNat ""
          let r := process_subject cfg remote fails subject w0
          if r.1 then (⟨0, true⟩, writeMarker cfg.outputDir subject now r.2)
          else (⟨0, false⟩, r.2)
        else (⟨1, false⟩, w0)

theorem runStages_ok_iff (fails : StageName → Bool) (l : List StageName) :
    runStages fails l = Except.ok () ↔ ∀ s ∈ l, fails s = false := by
  induction l with
  | nil => simp [runStages]
  | cons a rest ih =>
    by_cases h : fails a = true <;> simp [runStages, h, ih]

theorem workerBody_fst_false (fails : StageName → Bool) (subject keyPath : String)
    (w : World) (s : StageName) (hs : s ∈ stageOrder) (hf : fails s = true) :
    (workerBody fails subject keyPath w).1 = false := by
  unfold workerBody
  split
  · rfl
  · cases hrs : runStages fails stageOrder with
    | ok u =>
      cases u
      have := (runStages_ok_iff fails stageOrder).mp hrs s hs
      rw [hf] at this
      cases this
    | error e => simp [hrs]

theorem process_subject_fst_false (cfg : WorkerConfig) (remote : String → Option String)
    (fails : StageName → Bool) (subject : String) (w0 : World)
    (s : StageName) (hs : s ∈ stageOrder) (hf : fails s = true) :
    (process_subject cfg remote fails subject w0).1 = false := by
  cases hrem : cfg.remoteHost with
  | some host =>
    simp only [process_subject, hrem]
    exact workerBody_fst_false fails subject _ _ s hs hf
  | none =>
    simp only [process_subject, hrem]
    exact workerBody_fst_false fails subject _ _ s hs hf

/-- C7: in worker mode with a readable work list and an in-range (1-based)
array index, the process exits 0 whatever the item's outcome; the marker is
written exactly when `process_subject` returned success; on failure the
world is left exactly as `process_subject` left it (no marker is created);
and any failing stage forces the marker to be absent. -/
theorem C7_worker_exit (cfg : WorkerConfig) (remote : String → Option String)
    (fails : StageName → Bool) (path : String) (subjects : List String)
    (now : String) (w0 : World) (t : Nat)
    (h1 : 1 ≤ t) (h2 : t ≤ subjects.length) :
    (workerMode cfg remote fails (some path) (some (t : Int)) (some subjects) now w0).1.exitCode = 0
    ∧ (workerMode cfg remote fails (some path) (some (t : Int)) (some subjects) now w0).1.markerWritten
        = (process_subject cfg remote fails (subjects.getD (t - 1) "") w0).1
    ∧ ((process_subject cfg remote fails (subjects.getD (t - 1) "") w0).1 = false →
        (workerMode cfg remote fails (some path) (some (t : Int)) (some subjects) now w0).2
          = (process_subject cfg remote fails (subjects.getD (t - 1) "") w0).2)
    ∧ (∀ s ∈ stageOrder, fails s = true →
        (workerMode cfg remote fails (some path) (some (t : Int)) (some subjects) now w0).1.markerWritten
          = false) := by
  have hin : (0 : Int) ≤ (t : Int) - 1 ∧ (t : Int) - 1 < (subjects.length : Int) := by
    constructor <;> omega
  have htoNat : ((t : Int) - 1).toNat = t - 1 := by omega
  simp only [workerMode, if_pos hin, htoNat]
  cases hps : (process_subject cfg remote fails (subjects.getD (t - 1) "") w0).1 with
  | true =>
    rw [if_pos rfl]
    refine ⟨rfl, rfl, ?_, ?_⟩
    · intro hcon
      exact absurd hcon (by decide)
    · intro s hs hf
      have hcontra := process_subject_fst_false cfg remote fails
        (subjects.getD (t - 1) "") w0 s hs hf
      rw [hps] at hcontra
      exact hcontra
  | false =>
    rw [if_neg (by simp : ¬ false = true)]
    exact ⟨rfl, rfl, fun _ => rfl, fun _ _ _ => rfl⟩
    
/-- C7 witness: concrete worker invocation (no remote host, first stage
fails) exits 0 with no marker written. -/
theorem C7_worker_exit_witness :
    1 ≤ 1 ∧ 1 ≤ (["sub-1"] : List String).length
    ∧ ((workerMode ⟨"/b", "/o", "ses-01", none, false⟩ (fun _ => none) (fun _ => true)
        (some "subjects_to_process_t.txt") (some ((1 : Nat) : Int)) (some ["sub-1"]) "now"
        emptyWorld).1.exitCode = 0
      ∧ (workerMode ⟨"/b", "/o", "ses-01", none, false⟩ (fun _ => none) (fun _ => true)
          (some "subjects_to_process_t.txt") (some ((1 : Nat) : Int)) (some ["sub-1"]) "now"
          emptyWorld).1.markerWritten
        = (process_subject ⟨"/b", "/o", "ses-01", none, false⟩ (fun _ => none) (fun _ => true)
            ((["sub-1"] : List String).getD (1 - 1) "") emptyWorld).1
      ∧ ((process_subject ⟨"/b", "/o", "ses-01", none, false⟩ (fun _ => none) (fun _ => true)
            ((["sub-1"] : List String).getD (1 - 1) "") emptyWorld).1 = false →
          (workerMode ⟨"/b", "/o", "ses-01", none, false⟩ (fun _ => none) (fun _ => true)
            (some "subjects_to_process_t.txt") (some ((1 : Nat) : Int)) (some ["sub-1"]) "now"
            emptyWorld).2
          = (process_subject ⟨"/b", "/o", "ses-01", none, false⟩ (fun _ => none) (fun _ => true)
              ((["sub-1"] : List String).getD (1 - 1) "") emptyWorld).2)
      ∧ (∀ s ∈ stageOrder, (fun (_ : StageName) => true) s = true →
          (workerMode ⟨"/b", "/o", "ses-01", none, false⟩ (fun _ => none) (fun _ => true)
            (some "subjects_to_process_t.txt") (some ((1 : Nat) : Int)) (some ["sub-1"]) "now"
            emptyWorld).1.markerWritten = false)) :=
  ⟨by decide, by decide,
   C7_worker_exit ⟨"/b", "/o", "ses-01", none, false⟩ (fun _ => none) (fun _ => true)
     "subjects_to_process_t.txt" ["sub-1"] "now" emptyWorld 1 (by decide) (by decide)⟩

/-- C5 counterexample: with a marker for `sub-X` already present (contents
`2024-05-05T10:00:00`), the worker's marker write (truncating `open(.., 'w')`,
`dti_processing.py` line 352) succeeds and replaces the record's contents
with the new timestamp — it is neither a failure nor a no-op, so the write
is not create-only. -/
theorem C5_marker_overwrite_counterexample :
    (writeMarker "/o" "sub-X" "2025-01-01T00:00:00"
        ⟨fun p => if p = markerPath "/o" "sub-X" then some "2024-05-05T10:00:00" else none,
          fun _ => false, [], []⟩).files (markerPath "/o" "sub-X")
      = some "2025-01-01T00:00:00"
    ∧ (writeMarker "/o" "sub-X" "2025-01-01T00:00:00"
        ⟨fun p => if p = markerPath "/o" "sub-X" then some "2024-05-05T10:00:00" else none,
          fun _ => false, [], []⟩).files (markerPath "/o" "sub-X")
      ≠ some "2024-05-05T10:00:00" := by
  constructor
  · simp [writeMarker]
  · simp [writeMarker]

/-- C5 (amended): the marker write always succeeds and stores the current
timestamp, overwriting any existing record's contents; it touches no other
path, so there is still exactly one record per identifier and re-marking is
harmless (idempotent up to the timestamp) but not create-only. -/
theorem C5_marker_write_overwrites (w : World) (outputDir subject now : String) :
    (writeMarker outputDir subject now w).files (markerPath outputDir subject) = some now
    ∧ ∀ p, p ≠ markerPath outputDir subject →
        (writeMarker outputDir subject now w).files p = w.files p := by
  constructor
  · simp [writeMarker]
  · intro p hp
    simp [writeMarker, hp]

/-- C5 witness: concrete overwrite of an existing marker, leaving an
unrelated path untouched. -/
theorem C5_marker_write_overwrites_witness :
    (writeMarker "/o" "sub-X" "t1"
        ⟨fun p => if p = markerPath "/o" "sub-X" then some "t0" else none,
          fun _ => false, [], []⟩).files (markerPath "/o" "sub-X") = some "t1"
    ∧ (writeMarker "/o" "sub-X" "t1"
        ⟨fun p => if p = markerPath "/o" "sub-X" then some "t0" else none,
          fun _ => false, [], []⟩).files "/other"
      = (⟨fun p => if p = markerPath "/o" "sub-X" then some "t0" else none,
          fun _ => false, [], []⟩ : World).files "/other" :=
  ⟨(C5_marker_write_overwrites
      ⟨fun p => if p = markerPath "/o" "sub-X" then some "t0" else none,
        fun _ => false, [], []⟩ "/o" "sub-X" "t1").1,
   (C5_marker_write_overwrites
      ⟨fun p => if p = markerPath "/o" "sub-X" then some "t0" else none,
        fun _ => false, [], []⟩ "/o" "sub-X" "t1").2 "/other" (by decide)⟩

/- ## Aggregation (`create_dataset_description`, `dti_utils.py` 249-295, and
report mode of `main`, `dti_processing.py` 362-407) -/

/-- Environment inputs of `create_dataset_description` (`dti_utils.py` lines
257-269): the optional contents of the FSL version file (`none` models
`FileNotFoundError`), hostname, date string, optional login user (`none`
models the `OSError` fallback), and whether the manifest write succeeds. -/
structure AggEnv where
  fslVersionFile : Option String
  hostname : String
  dateStr : String
  loginUser : Option String
  writeOk : Bool

/-- Content of the `dataset_description` JSON document built at
`dti_utils.py` lines 271-287. -/
structure Manifest where
  name : String
  bidsVersion : String
  pipelineName : String
  pipelineVersion : String
  runOnMachine : String
  runByUser : String
  softwareName : String
  softwareVersion : String
  subjectsProcessed : List String
deriving DecidableEq

/-- Translation of the `dataset_description` dict literal (`dti_utils.py`
lines 271-287). -/
def buildManifest (env : AggEnv) (successful : List String) : Manifest :=
  { name := "dMRI Preprocessing Output " ++ env.dateStr,
    bidsVersion := "1.10.1",
    pipelineName := "dMRI Preprocessing Pipeline",
    pipelineVersion := "1.1",
    runOnMachine := env.hostname,
    runByUser := env.loginUser.getD "unknown",
    softwareName := "FSL",
    softwareVersion := env.fslVersionFile.getD "unknown",
    subjectsProcessed := successful }

/-- Model of the `json.dump` call inside the inner `try` (`dti_utils.py`
lines 290-292): an `IOError` is modeled as `Except.error`. -/
def writeManifestFile (writeOk : Bool) : Except Unit Unit :=
  if writeOk then Except.ok () else Except.error ()

/-- Result of `create_dataset_description`: the written manifest (with its
output path) when the write succeeded, and whether the write-failure error
was logged.  The function itself never raises: the only fallible statement
is the write, and its `IOError` is caught and logged (`dti_utils.py` lines
289-295). -/
structure AggResult where
  written : Option (String × Manifest)
  writeErrorLogged : Bool
deriving DecidableEq

/-- Translation of `create_dataset_description` (`dti_utils.py` lines
249-295).  The source signature is `(output_dir, fsl_dir, successful_subjects)`;
the read of `<fsl_dir>/etc/fslversion` and the other environment probes are
folded into `env`. -/
def create_dataset_description (env : AggEnv) (outputDir : String)
    (successful_subjects : List String) : AggResult :=
  let outFile := ospJoin outputDir ("dataset_description_" ++ env.dateStr ++ ".json")
  match writeManifestFile env.writeOk with
  | Except.ok _ => ⟨some (outFile, buildManifest env successful_subjects), false⟩
  | Except.error _ => ⟨none, true⟩

/-- Outcome of the aggregation call made by report mode at
`dti_processing.py` line 380: either the call raised, or it returned an
`AggResult`. -/
inductive AggCallOutcome
  | raised (msg : String)
  | returned (r : AggResult)

/-- Observable outcome of one report-mode process. -/
structure ReportOutcome where
  exitCode : Nat
  successfulSubjects : List String
  manifest : Option (String × Manifest)
  markerDirRemoved : Bool
  removedFiles : List String
deriving DecidableEq

/-- Timestamp recovered from the work-list basename at `dti_processing.py`
line 389: `basename[len("subjects_to_process_"):-4]`. -/
def timestampOfListName (base : String) : String :=
  String.mk (((base.data.drop 20).take ((base.data.drop 20).length - 4)))

/-- Translation of report mode after the work list has been read
(`dti_processing.py` lines 368-407), parameterized by the outcome of the
aggregation call at line 380.  If that call raises, the outer `except`
logs and exits 1, so nothing is purged; if it returns, the marker
directory is removed, the timestamped submission artifacts and the work
list are removed when the basename matches the
`subjects_to_process_*.txt` pattern, and the process exits 0. -/
def reportModeCore (subjects : List String) (marked : String → Bool)
    (agg : AggCallOutcome) (listPath : String) : ReportOutcome :=
  let successful := subjects.filter (fun s => marked s)
  match agg with
  | AggCallOutcome.raised _ => ⟨1, successful, none, false, []⟩
  | AggCallOutcome.returned r =>
    let base := basenameStr listPath
    let removed :=
      if strStarts "subjects_to_process_" base = true ∧ strEnds ".txt" base = true then
        ["submit_report_" ++ timestampOfListName base ++ ".sh",
         "submit_array_" ++ timestampOfListName base ++ ".sh",
         listPath]
      else []
    ⟨0, successful, r.written, true, removed⟩

/-- Translation of report mode as shipped (`dti_processing.py` lines
362-407): the call at line 380 passes four arguments
`(OUTPUT_DIR, FSL_DIR, successful_subjects, SESSION)` to
`create_dataset_description`, whose definition (`dti_utils.py` line 249)
takes three parameters, so the call raises `TypeError` before any manifest
write is attempted; the outer `except` catches it and exits 1. -/
def reportMode (subjects : List String) (marked : String → Bool)
    (listPath : String) : ReportOutcome :=
  reportModeCore subjects marked
    (AggCallOutcome.raised
      "TypeError: create_dataset_description() takes 3 positional arguments but 4 were given")
    listPath

/-- C1 (code bug evaluation): on the spec's Scenario E input — work list
`[sub-X, sub-Y]` with a marker for `sub-X` only — report mode computes the
marked subset but then exits 1 without writing a manifest, without removing
the marker directory, and without removing the work-list or submission
files, because the aggregation call has the wrong arity. -/
theorem C1_report_mode_arity_bug :
    reportMode ["sub-X", "sub-Y"] (fun s => s == "sub-X")
        "subjects_to_process_20240101_120000.txt"
      = ⟨1, ["sub-X"], none, false, []⟩ := by
  decide

/-- C4 counterexample: when the manifest write fails, the failure is only
logged — `create_dataset_description` returns normally with no manifest —
and a report-mode flow whose aggregation call returns then still removes
the marker directory and exits 0, contradicting the claimed nonzero exit
with preserved markers. -/
theorem C4_write_failure_counterexample :
    (create_dataset_description ⟨none, "node01", "2024-01-01", none, false⟩ "/o"
        ["sub-X"]).writeErrorLogged = true
    ∧ (create_dataset_description ⟨none, "node01", "2024-01-01", none, false⟩ "/o"
        ["sub-X"]).written = none
    ∧ (reportModeCore ["sub-X", "sub-Y"] (fun s => s == "sub-X")
        (AggCallOutcome.returned (create_dataset_description
          ⟨none, "node01", "2024-01-01", none, false⟩ "/o" ["sub-X"]))
        "subjects_to_process_20240101_120000.txt").exitCode = 0
    ∧ (reportModeCore ["sub-X", "sub-Y"] (fun s => s == "sub-X")
        (AggCallOutcome.returned (create_dataset_description
          ⟨none, "node01", "2024-01-01", none, false⟩ "/o" ["sub-X"]))
        "subjects_to_process_20240101_120000.txt").markerDirRemoved = true := by
  refine ⟨rfl, rfl, rfl, rfl⟩

/-- C4 (amended): a manifest write failure is logged inside
`create_dataset_description` and swallowed — the function returns normally
with no manifest written and no exception for the caller to exit nonzero
on; consequently a report-mode flow in which the aggregation call returns
purges the marker directory and exits 0 even though the manifest write
failed.  (In the shipped code the call site never even reaches the write —
see the C1 arity bug.) -/
theorem C4_write_failure_swallowed (env : AggEnv) (outputDir : String)
    (subs subjects : List String) (marked : String → Bool) (listPath : String)
    (hw : env.writeOk = false) :
    (create_dataset_description env outputDir subs).writeErrorLogged = true
    ∧ (create_dataset_description env outputDir subs).written = none
    ∧ (reportModeCore subjects marked
        (AggCallOutcome.returned (create_dataset_description env outputDir subs))
        listPath).exitCode = 0
    ∧ (reportModeCore subjects marked
        (AggCallOutcome.returned (create_dataset_description env outputDir subs))
        listPath).markerDirRemoved = true
    ∧ (reportModeCore subjects marked
        (AggCallOutcome.returned (create_dataset_description env outputDir subs))
        listPath).manifest = none := by
  have hagg : create_dataset_description env outputDir subs = ⟨none, true⟩ := by
    simp [create_dataset_description, writeManifestFile, hw]
  rw [hagg]
  exact ⟨rfl, rfl, rfl, rfl, rfl⟩

/-- C4 witness: concrete failing write. -/
theorem C4_write_failure_swallowed_witness :
    (create_dataset_description ⟨some "6.0.4", "n1", "2024-02-02", some "u", false⟩ "/o"
        ["sub-A"]).writeErrorLogged = true
    ∧ (create_dataset_description ⟨some "6.0.4", "n1", "2024-02-02", some "u", false⟩ "/o"
        ["sub-A"]).written = none
    ∧ (reportModeCore ["sub-A"] (fun _ => true)
        (AggCallOutcome.returned (create_dataset_description
          ⟨some "6.0.4", "n1", "2024-02-02", some "u", false⟩ "/o" ["sub-A"]))
        "subjects_to_process_x.txt").exitCode = 0
    ∧ (reportModeCore ["sub-A"] (fun _ => true)
        (AggCallOutcome.returned (create_dataset_description
          ⟨some "6.0.4", "n1", "2024-02-02", some "u", false⟩ "/o" ["sub-A"]))
        "subjects_to_process_x.txt").markerDirRemoved = true
    ∧ (reportModeCore ["sub-A"] (fun _ => true)
        (AggCallOutcome.returned (create_dataset_description
          ⟨some "6.0.4", "n1", "2024-02-02", some "u", false⟩ "/o" ["sub-A"]))
        "subjects_to_process_x.txt").manifest = none :=
  C4_write_failure_swallowed ⟨some "6.0.4", "n1", "2024-02-02", some "u", false⟩ "/o"
    ["sub-A"] ["sub-A"] (fun _ => true) "subjects_to_process_x.txt" rfl

/- ## Submission (`submit_slurm_workflow`, `dti_utils.py` 298-368) -/

/-- Array submission descriptor written at `dti_utils.py` lines 325-340. -/
structure ArrayDescriptor where
  jobName : String
  arrayLow : Nat
  arrayHigh : Nat
  concurrencyCap : Nat
  subjectsFile : String
  forceFlag : Bool
deriving DecidableEq

/-- Aggregator (reporting) submission descriptor written at `dti_utils.py`
lines 353-365, with its scheduler dependency clause. -/
structure ReportDescriptor where
  jobName : String
  dependency : String
  subjectsFile : String
deriving DecidableEq

/-- One `sbatch` invocation, in submission order. -/
inductive Submission
  | array (d : ArrayDescriptor)
  | report (d : ReportDescriptor)
deriving DecidableEq

/-- Parsing of the scheduler's reply at `dti_utils.py` line 346:
`output.strip().split()[-1]`; an empty reply makes the indexing raise
(`none`). -/
def parseJobId (out : String) : Option String := (pySplitWs (pyStrip out)).getLast?

/-- The array descriptor built by `submit_slurm_workflow` (`dti_utils.py`
lines 316-340): job name `dwiprep`, array `1-N` with the configured
concurrency cap, worker command over the timestamped subjects file, plus
the `--force_remote` flag when configured. -/
def arrayDescriptorOf (subjects : List String) (cap : Nat) (timestamp : String)
    (forceRemote : Bool) : ArrayDescriptor :=
  ⟨"dwiprep", 1, subjects.length, cap,
    "subjects_to_process_" ++ timestamp ++ ".txt", forceRemote⟩

/-- Translation of `submit_slurm_workflow` (`dti_utils.py` lines 298-368):
the subjects file and array descriptor are written, the array descriptor is
submitted, and the scheduler's reply is parsed for the job id; if the
`sbatch` raised (`sbatchArrayReply = none`) or the reply does not parse,
the `except` clause returns early and the reporting descriptor is never
built or submitted; otherwise the reporting descriptor embeds
`afterany:<job id>` and is submitted second.  Returns the ordered `sbatch`
invocations and the parsed array job id. -/
def submit_slurm_workflow (sbatchArrayReply : Option String)
    (subjects : List String) (cap : Nat) (timestamp : String) (forceRemote : Bool) :
    List Submission × Option String :=
  let arrayD := arrayDescriptorOf subjects cap timestamp forceRemote
  match sbatchArrayReply with
  | none => ([Submission.array arrayD], none)
  | some out =>
    match parseJobId out with
    | none => ([Submission.array arrayD], none)
    | some jid =>
      ([Submission.array arrayD,
        Submission.report ⟨"dwiprep_report", "afterany:" ++ jid,
          "subjects_to_process_" ++ timestamp ++ ".txt"⟩], some jid)

/-- C8: the array descriptor is always submitted first; the aggregator
descriptor is submitted only when the array submission returned a reply
whose job id parses, and then its dependency clause is `afterany:<that id>`;
when the array `sbatch` raises or its reply does not parse, the submission
list is exactly the array submission — the aggregator is never submitted. -/
theorem C8_submission_order (sbatchArrayReply : Option String)
    (subjects : List String) (cap : Nat) (timestamp : String) (forceRemote : Bool) :
    (submit_slurm_workflow sbatchArrayReply subjects cap timestamp forceRemote).1.head?
      = some (Submission.array (arrayDescriptorOf subjects cap timestamp forceRemote))
    ∧ (sbatchArrayReply.bind parseJobId = none →
        (submit_slurm_workflow sbatchArrayReply subjects cap timestamp forceRemote).1
          = [Submission.array (arrayDescriptorOf subjects cap timestamp forceRemote)])
    ∧ (∀ jid, sbatchArrayReply.bind parseJobId = some jid →
        (submit_slurm_workflow sbatchArrayReply subjects cap timestamp forceRemote).1
          = [Submission.array (arrayDescriptorOf subjects cap timestamp forceRemote),
             Submission.report ⟨"dwiprep_report", "afterany:" ++ jid,
               "subjects_to_process_" ++ timestamp ++ ".txt"⟩]) := by
  cases hreply : sbatchArrayReply with
  | none =>
    refine ⟨rfl, fun _ => rfl, ?_⟩
    intro jid hjid
    simp at hjid
  | some out =>
    cases hp : parseJobId out with
    | none =>
      refine ⟨?_, ?_, ?_⟩
      · simp [submit_slurm_workflow, hp]
      · intro h
        simp [submit_slurm_workflow, hp]
      · intro jid hjid
        simp [Option.bind, hp] at hjid
    | some jid0 =>
      refine ⟨?_, ?_, ?_⟩
      · simp [submit_slurm_workflow, hp]
      · intro h
        simp [Option.bind, hp] at h
      · intro jid hjid
        simp [Option.bind, hp] at hjid
        subst hjid
        simp [submit_slurm_workflow, hp]

/-- C8 witness: a successful array submission (`Submitted batch job 12345`)
produces the array-then-aggregator submission with dependency
`afterany:12345`; a raising array submission submits nothing further. -/
theorem C8_submission_order_witness :
    (some "Submitted batch job 12345\n" : Option String).bind parseJobId = some "12345"
    ∧ (submit_slurm_workflow (some "Submitted batch job 12345\n") ["sub-1", "sub-2"]
        9 "20240101_120000" true).1
      = [Submission.array (arrayDescriptorOf ["sub-1", "sub-2"] 9 "20240101_120000" true),
         Submission.report ⟨"dwiprep_report", "afterany:12345",
           "subjects_to_process_20240101_120000.txt"⟩]
    ∧ ((none : Option String).bind parseJobId = none →
        (submit_slurm_workflow none ["sub-1", "sub-2"] 9 "20240101_120000" true).1
          = [Submission.array (arrayDescriptorOf ["sub-1", "sub-2"] 9 "20240101_120000" true)]) :=
  ⟨by decide,
   (C8_submission_order (some "Submitted batch job 12345\n") ["sub-1", "sub-2"]
     9 "20240101_120000" true).2.2 "12345" (by decide),
   (C8_submission_order (none : Option String) ["sub-1", "sub-2"]
     9 "20240101_120000" true).2.1⟩

/- ## Submitter mode of `main` (`dti_processing.py` 409-423) -/

/-- Observable outcome of submit mode. -/
structure SubmitterOutcome where
  exitCode : Nat
  workflowSubmitted : Bool
  noSubjectsLogged : Bool
deriving DecidableEq

/-- Translation of submitter mode (`dti_processing.py` lines 409-423): with
an empty discovery result it logs that no subjects were found and exits 0
(`sys.exit(0)`); otherwise it hands the list to `submit_slurm_workflow`
(whose own outcome, when it completes, leaves the process exiting 0). -/
def submitterMode (subjects : List String) : SubmitterOutcome :=
  if subjects.isEmpty then ⟨0, false, true⟩ else ⟨0, true, false⟩

/-- C10: when the catalog root is unreachable locally and the remote scan
command raises, discovery returns the empty list — the very same value a
successful scan that found nothing returns — and submit mode then logs that
no subjects were found and exits 0. -/
theorem C10_remote_scan_failure_empty (host : String) (ex : String → Bool)
    (catalog : List String) (bids outputDir sess : String) :
    get_subjects_to_process false (some host) none ex catalog bids outputDir sess = []
    ∧ get_subjects_to_process false (some host) none ex catalog bids outputDir sess
      = get_subjects_to_process false (some host) (some "") ex catalog bids outputDir sess
    ∧ submitterMode
        (get_subjects_to_process false (some host) none ex catalog bids outputDir sess)
      = ⟨0, false, true⟩ := by
  refine ⟨rfl, ?_, rfl⟩
  rfl
